import Mathlib

/-!
Verification of the Whisper transcription relay (`src/main.py`) as a shallow
embedding.  The FastAPI handler `transcribe_audio` is modelled as a pure
function from the optional upload, an oracle fixing the outcome of the two
effectful steps (reading the upload and calling the provider), the generated
temporary path, and the initial file-system state, to a response together
with the final file-system state and a trace of the effectful events.
-/

namespace WhisperProxy

/-- The string members of `allowed_types` in `transcribe_audio`
(main.py lines 67-68); the Python list also holds `None`, handled
separately since a present content type is a string. -/
def allowedTypes : List String :=
  ["audio/wav", "audio/mpeg", "audio/mp4", "audio/m4a", "audio/webm",
   "application/octet-stream", "audio/wave"]

/-- `allowed_extensions` (main.py line 74). -/
def allowedExtensions : List String :=
  [".wav", ".mp3", ".m4a", ".webm", ".mp4"]

/-- The multipart upload as the handler sees it: optional filename, optional
declared content type, raw payload bytes. -/
structure UploadFile where
  filename : Option String
  content_type : Option String
  content : List Nat
deriving Repr, DecidableEq

/-- Python `x or ""` on an optional string: `None` and `""` are falsy,
so both collapse to `""` (main.py line 73 and the f-string on line 79). -/
def pyOrEmpty : Option String → String
  | none => ""
  | some s => s

/-- Truthiness of the declared content type in
`if audio_file.content_type and ...` (main.py line 71):
`None` and the empty string are falsy. -/
def ctTruthy : Option String → Bool
  | none => false
  | some s => s != ""

/-- Python `s.endswith(ext)` at the character level: the reversed string
starts with the reversed suffix. -/
def pyEndsWith (s ext : String) : Bool :=
  s.data.reverse.take ext.data.length == ext.data.reverse

/-- `any(filename.lower().endswith(ext) for ext in allowed_extensions)`
(main.py line 76); `lower()` maps each character to lower case. -/
def extensionMatches (filename : String) : Bool :=
  allowedExtensions.any
    (fun ext => pyEndsWith (String.mk (filename.data.map Char.toLower)) ext)

/-- The admission gate of main.py lines 71-80: a falsy content type is
admitted; a content type in the allowed set is admitted; otherwise the
filename extension decides. `true` means the request is not rejected. -/
def admissionOk (f : UploadFile) : Bool :=
  match f.content_type with
  | none => true
  | some ct =>
    if ct == "" then true
    else if allowedTypes.contains ct then true
    else extensionMatches (pyOrEmpty f.filename)

/-- A Python value returned by the provider call: either a dict
(association list of string entries) or a bare string. -/
inductive PyVal where
  | pyDict (entries : List (String × String))
  | pyStr (s : String)
deriving Repr, DecidableEq

/-- Outcome of `openai.Audio.transcribe` (main.py lines 96-100): it
either returns a value or raises with a message. -/
inductive ProviderOutcome where
  | retVal (v : PyVal)
  | raise (msg : String)
deriving Repr, DecidableEq

/-- Oracle fixing the effectful outcomes for one request:
`readErr = some e` means `await audio_file.read()` (main.py line 84)
raises with message `e`; `provider` is the provider-call outcome. -/
structure Oracle where
  readErr : Option String
  provider : ProviderOutcome
deriving Repr, DecidableEq

/-- Message of the AttributeError raised by `transcript.get(...)` when
`transcript` is a bare string (the debug print, main.py line 102). -/
def attrGetErr : String := "str object has no attribute get"

/-- Python attribute access `v.get(key, dflt)`: succeeds on a dict,
raises AttributeError on a bare string. -/
def pyGet (v : PyVal) (key dflt : String) : Except String String :=
  match v with
  | .pyDict es => .ok ((es.lookup key).getD dflt)
  | .pyStr _ => .error attrGetErr

/-- The extraction expression of main.py line 105:
`transcript.get("text", "") if isinstance(transcript, dict) else str(transcript)`. -/
def extractText : PyVal → String
  | .pyDict es => (es.lookup "text").getD ""
  | .pyStr s => s

/-- File-system state: the set of existing paths, as a list. -/
abbrev FS := List String

/-- `os.unlink`: removes the path, raising FileNotFoundError when absent. -/
def unlink (p : String) (fs : FS) : Except String FS :=
  if fs.contains p then .ok (fs.filter (fun q => q != p))
  else .error "FileNotFoundError"

/-- The guarded deletion of main.py lines 116-117:
`if os.path.exists(temp_file_path): os.unlink(temp_file_path)`,
as a fallible step (it never actually fails; see the lemmas below). -/
def cleanupTempE (p : String) (fs : FS) : Except String FS :=
  if fs.contains p then unlink p fs else .ok fs

/-- Total version of the guarded deletion, used by the handler model. -/
def cleanupTemp (p : String) (fs : FS) : FS :=
  if fs.contains p then fs.filter (fun q => q != p) else fs

/-- Effectful events the handler can perform, in order. -/
inductive Event where
  | evRead
  | evCreateTemp (path : String)
  | evProviderCall
  | evDeleteTemp (path : String)
deriving Repr, DecidableEq

/-- `True` if the event is the creation of a staged temporary file. -/
def Event.isCreate : Event → Bool
  | .evCreateTemp _ => true
  | _ => false

/-- A response from the handler: the success JSON body
`{"success": ..., "transcription": ..., "filename": ...}` (HTTP 200), or
an `HTTPException` with a status code and a detail string. -/
inductive Response where
  | jsonOk (success : Bool) (transcription : String) (filename : Option String)
  | httpError (status : Nat) (detail : String)
deriving Repr, DecidableEq

/-- The HTTP status of a response; the JSON body is served with 200. -/
def Response.status : Response → Nat
  | .jsonOk _ _ _ => 200
  | .httpError s _ => s

/-- Detail of the 400 raised when no file is supplied (main.py line 59). -/
def missingFileDetail : String := "Nu a fost furnizat niciun fisier audio"

/-- Detail of the 400 raised when admission fails (main.py line 79): it
interpolates the received content type and the (falsy-defaulted) filename. -/
def unsupportedDetail (ct filename : String) : String :=
  "Tipul fisierului nu este suportat. Content-type: "
    ++ (ct ++ (", Filename: " ++ filename))

/-- Prefix of the 500 detail built in the outer except (main.py line 124). -/
def errIntro : String := "Eroare la transcrierea audio: "

/-- Result of one handler run: the response sent, the final file-system
state, and the trace of effectful events. -/
structure HandlerOutput where
  response : Response
  fs : FS
  trace : List Event
deriving Repr, DecidableEq

/-- Shallow embedding of `transcribe_audio` (main.py lines 46-125).
`audio_file` is the optional upload, `o` fixes the effectful outcomes,
`tempPath` is the unique name chosen by `NamedTemporaryFile`, and `fs0`
is the file system before the request. -/
def transcribe_audio (audio_file : Option UploadFile) (o : Oracle)
    (tempPath : String) (fs0 : FS) : HandlerOutput :=
  match audio_file with
  | none => ⟨.httpError 400 missingFileDetail, fs0, []⟩
  | some f =>
    if admissionOk f then
      match o.readErr with
      | some e =>
        ⟨.httpError 500 (errIntro ++ e), fs0, [.evRead]⟩
      | none =>
        let fs1 : FS := tempPath :: fs0
        let fs2 : FS := cleanupTemp tempPath fs1
        match o.provider with
        | .raise e =>
          ⟨.httpError 500 (errIntro ++ e), fs2,
            [.evRead, .evCreateTemp tempPath, .evProviderCall,
             .evDeleteTemp tempPath]⟩
        | .retVal v =>
          match pyGet v "text" "" with
          | .error e =>
            ⟨.httpError 500 (errIntro ++ e), fs2,
              [.evRead, .evCreateTemp tempPath, .evProviderCall,
               .evDeleteTemp tempPath]⟩
          | .ok _ =>
            ⟨.jsonOk true (extractText v) f.filename, fs2,
              [.evRead, .evCreateTemp tempPath, .evProviderCall,
               .evDeleteTemp tempPath]⟩
    else
      ⟨.httpError 400
          (unsupportedDetail (pyOrEmpty f.content_type) (pyOrEmpty f.filename)),
        fs0, []⟩

/-- `health_check` (main.py lines 148-151): the constant JSON payload,
as an association list preserving field order. -/
def health_check : List (String × String) :=
  [("status", "healthy"), ("service", "whisper-proxy"),
   ("openai_version", "0.28")]

/-! ### Helper lemmas about the file-system model -/

theorem mem_filter_ne (p : String) (fs : FS) :
    p ∉ fs.filter (fun q => q != p) := by
  intro h
  have := List.mem_filter.mp h
  simp at this

theorem filter_ne_of_not_mem (p : String) (fs : FS) (h : p ∉ fs) :
    fs.filter (fun q => q != p) = fs := by
  apply List.filter_eq_self.mpr
  intro a ha
  simp only [bne_iff_ne, ne_eq, decide_eq_true_eq]
  intro hap
  exact h (hap ▸ ha)

theorem cleanupTemp_not_mem (p : String) (fs : FS) :
    p ∉ cleanupTemp p fs := by
  by_cases h : p ∈ fs <;> simp [cleanupTemp, h, mem_filter_ne p fs]

theorem cleanupTemp_cons_fresh (p : String) (fs : FS) (h : p ∉ fs) :
    cleanupTemp p (p :: fs) = fs := by
  simp [cleanupTemp, filter_ne_of_not_mem p fs h]

theorem cleanupTempE_never_raises (p : String) (fs : FS) :
    cleanupTempE p fs = .ok (cleanupTemp p fs) := by
  by_cases h : p ∈ fs <;> simp [cleanupTempE, cleanupTemp, unlink, h]

theorem cleanupTemp_of_not_mem (p : String) (fs : FS) (h : p ∉ fs) :
    cleanupTemp p fs = fs := by
  simp [cleanupTemp, h]

/-- Shape of every admitted run that reaches staging: whatever the provider
does, the final file system is the cleaned-up staged state and the trace is
read, create, provider call, delete, in that order. -/
theorem admitted_run_shape (f : UploadFile) (o : Oracle) (tempPath : String)
    (fs0 : FS) (hadm : admissionOk f = true) (hread : o.readErr = none) :
    (transcribe_audio (some f) o tempPath fs0).fs
      = cleanupTemp tempPath (tempPath :: fs0)
    ∧ (transcribe_audio (some f) o tempPath fs0).trace
      = [.evRead, .evCreateTemp tempPath, .evProviderCall,
         .evDeleteTemp tempPath] := by
  cases hp : o.provider with
  | raise e => simp [transcribe_audio, hadm, hread, hp]
  | retVal v =>
    cases v with
    | pyDict es => simp [transcribe_audio, hadm, hread, hp, pyGet]
    | pyStr s => simp [transcribe_audio, hadm, hread, hp, pyGet]

/-! ### Claim theorems -/

/-- C1: for every request admitted past validation that reaches staging,
exactly one staged temporary file is created (the trace holds a single
creation event); after the handler returns the staged path no longer
exists, whether the provider call succeeds or raises; when the temporary
name was fresh the file system is restored exactly; and running the guarded
deletion again on the final state — where the file is already absent —
raises nothing and changes nothing. -/
theorem staged_file_created_once_and_removed (f : UploadFile) (o : Oracle)
    (tempPath : String) (fs0 : FS)
    (hadm : admissionOk f = true) (hread : o.readErr = none) :
    ((transcribe_audio (some f) o tempPath fs0).trace.filter Event.isCreate
      = [Event.evCreateTemp tempPath])
    ∧ tempPath ∉ (transcribe_audio (some f) o tempPath fs0).fs
    ∧ (tempPath ∉ fs0 → (transcribe_audio (some f) o tempPath fs0).fs = fs0)
    ∧ cleanupTempE tempPath (transcribe_audio (some f) o tempPath fs0).fs
      = .ok (transcribe_audio (some f) o tempPath fs0).fs := by
  obtain ⟨hfs, htr⟩ := admitted_run_shape f o tempPath fs0 hadm hread
  have hnm : tempPath ∉ (transcribe_audio (some f) o tempPath fs0).fs := by
    rw [hfs]; exact cleanupTemp_not_mem tempPath (tempPath :: fs0)
  refine ⟨?_, hnm, ?_, ?_⟩
  · rw [htr]; simp [Event.isCreate]
  · intro hfresh
    rw [hfs]; exact cleanupTemp_cons_fresh tempPath fs0 hfresh
  · rw [cleanupTempE_never_raises,
      cleanupTemp_of_not_mem tempPath _ hnm]

/-- Witness for C1 at a concrete admitted request whose provider raises. -/
theorem staged_file_created_once_and_removed_witness :
    (admissionOk ⟨some "a.wav", some "audio/wav", [1, 2]⟩ = true)
    ∧ ((transcribe_audio (some ⟨some "a.wav", some "audio/wav", [1, 2]⟩)
        ⟨none, .raise "timeout"⟩ "/tmp/t1.wav" ["other"]).fs = ["other"]) :=
  ⟨rfl,
    (staged_file_created_once_and_removed ⟨some "a.wav", some "audio/wav", [1, 2]⟩
      ⟨none, .raise "timeout"⟩ "/tmp/t1.wav" ["other"] rfl rfl).2.2.1
      (by decide)⟩

/-- C2: a request with no file payload is answered with HTTP 400 and the
missing-file detail, whatever the oracle, temporary path and file system. -/
theorem missing_file_returns_400 (o : Oracle) (tempPath : String) (fs0 : FS) :
    (transcribe_audio none o tempPath fs0).response
      = .httpError 400 missingFileDetail := rfl

/-- C4: a declared content type in the allowed set passes admission,
regardless of the filename. -/
theorem allowed_content_type_admitted (f : UploadFile) (ct : String)
    (hct : f.content_type = some ct) (hmem : ct ∈ allowedTypes) :
    admissionOk f = true := by
  by_cases h0 : ct = ""
  · simp [admissionOk, hct, h0]
  · simp [admissionOk, hct, h0, hmem]

/-- Witness for C4: content type audio/wav with a non-audio filename. -/
theorem allowed_content_type_admitted_witness :
    ("audio/wav" ∈ allowedTypes)
    ∧ admissionOk ⟨some "notes.txt", some "audio/wav", []⟩ = true :=
  ⟨by decide,
    allowed_content_type_admitted ⟨some "notes.txt", some "audio/wav", []⟩
      "audio/wav" rfl (by decide)⟩

/-- C5: an absent or empty declared content type passes admission for any
filename whatsoever. -/
theorem absent_content_type_admitted (f : UploadFile)
    (h : f.content_type = none ∨ f.content_type = some "") :
    admissionOk f = true := by
  rcases h with h | h <;> simp [admissionOk, h]

/-- Witness for C5 at an absent content type and a non-audio filename. -/
theorem absent_content_type_admitted_witness :
    ((⟨some "notes.txt", none, [3]⟩ : UploadFile).content_type = none
      ∨ (⟨some "notes.txt", none, [3]⟩ : UploadFile).content_type = some "")
    ∧ admissionOk ⟨some "notes.txt", none, [3]⟩ = true :=
  ⟨Or.inl rfl,
    absent_content_type_admitted ⟨some "notes.txt", none, [3]⟩ (Or.inl rfl)⟩

/-- C6: a present content type outside the allowed set, with a filename
whose lowercased form matches no allowed extension, is rejected with
HTTP 400, and the detail string embeds both the received content type and
the received (falsy-defaulted) filename. -/
theorem unsupported_type_rejected (f : UploadFile) (o : Oracle)
    (tempPath : String) (fs0 : FS) (ct : String)
    (hct : f.content_type = some ct) (hne : ct ≠ "")
    (hmem : ct ∉ allowedTypes)
    (hext : extensionMatches (pyOrEmpty f.filename) = false) :
    (transcribe_audio (some f) o tempPath fs0).response
      = .httpError 400 (unsupportedDetail ct (pyOrEmpty f.filename))
    ∧ (∃ a b, unsupportedDetail ct (pyOrEmpty f.filename)
        = a ++ (ct ++ b))
    ∧ (∃ c, unsupportedDetail ct (pyOrEmpty f.filename)
        = c ++ pyOrEmpty f.filename) := by
  have hadm : admissionOk f = false := by
    simp [admissionOk, hct, hne, hmem, hext]
  refine ⟨?_, ?_, ?_⟩
  · simp [transcribe_audio, hadm, hct, pyOrEmpty]
  · exact ⟨"Tipul fisierului nu este suportat. Content-type: ",
      ", Filename: " ++ pyOrEmpty f.filename, rfl⟩
  · exact ⟨"Tipul fisierului nu este suportat. Content-type: "
      ++ (ct ++ ", Filename: "), by simp [unsupportedDetail, String.append_assoc]⟩

/-- Witness for C6: content type text/plain with filename note.txt. -/
theorem unsupported_type_rejected_witness :
    ("text/plain" ∉ allowedTypes)
    ∧ extensionMatches "note.txt" = false
    ∧ (transcribe_audio (some ⟨some "note.txt", some "text/plain", [7]⟩)
        ⟨none, .retVal (.pyStr "x")⟩ "/tmp/t2.wav" []).response
      = .httpError 400 (unsupportedDetail "text/plain" "note.txt") :=
  ⟨by decide, by decide,
    (unsupported_type_rejected ⟨some "note.txt", some "text/plain", [7]⟩
      ⟨none, .retVal (.pyStr "x")⟩ "/tmp/t2.wav" [] "text/plain"
      rfl (by decide) (by decide) (by decide)).1⟩

/-- C7: once a request is admitted, a failure of the read, of the provider
call, or of the post-call extraction is answered with HTTP 500 whose detail
is the fixed intro followed by the underlying message — so the detail
embeds the cause and the exception never escapes as an unhandled fault
(the handler is total and always yields a response). -/
theorem pipeline_failure_returns_500 (f : UploadFile) (o : Oracle)
    (tempPath : String) (fs0 : FS) (e : String)
    (hadm : admissionOk f = true)
    (hfail : o.readErr = some e
      ∨ (o.readErr = none ∧ o.provider = .raise e)
      ∨ (o.readErr = none ∧ e = attrGetErr
          ∧ ∃ s, o.provider = .retVal (.pyStr s))) :
    (transcribe_audio (some f) o tempPath fs0).response
      = .httpError 500 (errIntro ++ e)
    ∧ (∃ a, errIntro ++ e = a ++ e) := by
  refine ⟨?_, ⟨errIntro, rfl⟩⟩
  rcases hfail with h | ⟨hr, hp⟩ | ⟨hr, he, s, hp⟩
  · simp [transcribe_audio, hadm, h]
  · simp [transcribe_audio, hadm, hr, hp]
  · subst he
    simp [transcribe_audio, hadm, hr, hp, pyGet]

/-- Witness for C7 at a concrete admitted request whose provider raises. -/
theorem pipeline_failure_returns_500_witness :
    (admissionOk ⟨some "b.mp3", none, [9]⟩ = true)
    ∧ (transcribe_audio (some ⟨some "b.mp3", none, [9]⟩)
        ⟨none, .raise "rate limit"⟩ "/tmp/t3.wav" []).response
      = .httpError 500 (errIntro ++ "rate limit") :=
  ⟨rfl,
    (pipeline_failure_returns_500 ⟨some "b.mp3", none, [9]⟩
      ⟨none, .raise "rate limit"⟩ "/tmp/t3.wav" [] "rate limit" rfl
      (Or.inr (Or.inl ⟨rfl, rfl⟩))).1⟩

/-- C3 counterexample: an admitted request whose provider returns the bare
string value is answered with HTTP 500 — the debug print accesses the
response with a dict method before the tolerant extraction — not with the
success payload the claim promises. -/
theorem string_response_gives_500 :
    (transcribe_audio (some ⟨some "a.wav", some "audio/wav", [1]⟩)
        ⟨none, .retVal (.pyStr "salut")⟩ "/tmp/t4.wav" []).response
      = .httpError 500 (errIntro ++ attrGetErr)
    ∧ (transcribe_audio (some ⟨some "a.wav", some "audio/wav", [1]⟩)
        ⟨none, .retVal (.pyStr "salut")⟩ "/tmp/t4.wav" []).response
      ≠ .jsonOk true "salut" (some "a.wav") := by
  refine ⟨rfl, ?_⟩
  intro h
  exact absurd h (by decide)

/-- C3 amended: for every admitted request whose provider returns a mapping
holding a text field, the handler succeeds with the extracted text and the
original filename. -/
theorem dict_response_succeeds (f : UploadFile) (o : Oracle)
    (tempPath : String) (fs0 : FS) (es : List (String × String)) (t : String)
    (hadm : admissionOk f = true) (hread : o.readErr = none)
    (hp : o.provider = .retVal (.pyDict es))
    (ht : es.lookup "text" = some t) :
    (transcribe_audio (some f) o tempPath fs0).response
      = .jsonOk true t f.filename := by
  simp [transcribe_audio, hadm, hread, hp, pyGet, extractText, ht]

/-- Witness for the amended C3 at a concrete dict-shaped response. -/
theorem dict_response_succeeds_witness :
    ([("text", "buna ziua")].lookup "text" = some "buna ziua")
    ∧ (transcribe_audio (some ⟨some "c.webm", some "audio/webm", [4]⟩)
        ⟨none, .retVal (.pyDict [("text", "buna ziua")])⟩ "/tmp/t5.wav"
        []).response
      = .jsonOk true "buna ziua" (some "c.webm") :=
  ⟨rfl,
    dict_response_succeeds ⟨some "c.webm", some "audio/webm", [4]⟩
      ⟨none, .retVal (.pyDict [("text", "buna ziua")])⟩ "/tmp/t5.wav" []
      [("text", "buna ziua")] "buna ziua" rfl rfl rfl rfl⟩

/-- C8 counterexample: the health payload is not exactly the two fields
status and service — it carries a third field, openai_version. -/
theorem health_check_extra_field :
    health_check.map Prod.fst ≠ ["status", "service"]
    ∧ health_check.lookup "openai_version" = some "0.28" := by
  exact ⟨by decide, rfl⟩

/-- C8 amended: the health endpoint is a constant — no side effects, no
failure modes — whose fixed payload has the fields status, service and
openai_version with the fixed values healthy, whisper-proxy and 0.28. -/
theorem health_check_fixed_payload :
    health_check.lookup "status" = some "healthy"
    ∧ health_check.lookup "service" = some "whisper-proxy"
    ∧ health_check.lookup "openai_version" = some "0.28"
    ∧ health_check.map Prod.fst = ["status", "service", "openai_version"] := by
  refine ⟨rfl, rfl, rfl, rfl⟩

/-- C9: whenever the handler answers with HTTP 400 — missing file or failed
admission — the file system is untouched and the trace is empty: nothing
was staged and the payload was never read. -/
theorem rejected_request_leaves_fs_untouched (audio_file : Option UploadFile)
    (o : Oracle) (tempPath : String) (fs0 : FS) (d : String)
    (h : (transcribe_audio audio_file o tempPath fs0).response
      = .httpError 400 d) :
    (transcribe_audio audio_file o tempPath fs0).fs = fs0
    ∧ (transcribe_audio audio_file o tempPath fs0).trace = [] := by
  cases audio_file with
  | none => exact ⟨rfl, rfl⟩
  | some f =>
    by_cases hadm : admissionOk f = true
    · exfalso
      cases hread : o.readErr with
      | some e => simp [transcribe_audio, hadm, hread] at h
      | none =>
        cases hp : o.provider with
        | raise e => simp [transcribe_audio, hadm, hread, hp] at h
        | retVal v =>
          cases v with
          | pyDict es =>
            simp [transcribe_audio, hadm, hread, hp, pyGet] at h
          | pyStr s =>
            simp [transcribe_audio, hadm, hread, hp, pyGet] at h
    · have hadm' : admissionOk f = false := by
        simpa using hadm
      simp [transcribe_audio, hadm']

/-- Witness for C9 at a concrete rejected upload over a non-empty file
system. -/
theorem rejected_request_leaves_fs_untouched_witness :
    (transcribe_audio (some ⟨some "a.txt", some "text/plain", [5]⟩)
        ⟨none, .retVal (.pyStr "x")⟩ "/tmp/t6.wav" ["keep"]).fs = ["keep"]
    ∧ (transcribe_audio (some ⟨some "a.txt", some "text/plain", [5]⟩)
        ⟨none, .retVal (.pyStr "x")⟩ "/tmp/t6.wav" ["keep"]).trace = [] :=
  rejected_request_leaves_fs_untouched
    (some ⟨some "a.txt", some "text/plain", [5]⟩)
    ⟨none, .retVal (.pyStr "x")⟩ "/tmp/t6.wav" ["keep"]
    (unsupportedDetail "text/plain" "a.txt") rfl

/-- C10: an admitted request whose provider returns a mapping without a
text key still succeeds: HTTP 200 with success true and the empty
transcription, the missing field silently defaulted. -/
theorem dict_without_text_defaults_empty (f : UploadFile) (o : Oracle)
    (tempPath : String) (fs0 : FS) (es : List (String × String))
    (hadm : admissionOk f = true) (hread : o.readErr = none)
    (hp : o.provider = .retVal (.pyDict es))
    (ht : es.lookup "text" = none) :
    (transcribe_audio (some f) o tempPath fs0).response
      = .jsonOk true "" f.filename
    ∧ ((transcribe_audio (some f) o tempPath fs0).response).status = 200 := by
  have hresp : (transcribe_audio (some f) o tempPath fs0).response
      = .jsonOk true "" f.filename := by
    simp [transcribe_audio, hadm, hread, hp, pyGet, extractText, ht]
  exact ⟨hresp, by rw [hresp]; rfl⟩

/-- Witness for C10 at a concrete admitted request whose provider returns a
mapping lacking the text key. -/
theorem dict_without_text_defaults_empty_witness :
    ([("language", "ro")].lookup "text" = (none : Option String))
    ∧ (transcribe_audio (some ⟨some "d.m4a", some "audio/m4a", [8]⟩)
        ⟨none, .retVal (.pyDict [("language", "ro")])⟩ "/tmp/t7.wav"
        []).response
      = .jsonOk true "" (some "d.m4a") :=
  ⟨rfl,
    (dict_without_text_defaults_empty ⟨some "d.m4a", some "audio/m4a", [8]⟩
      ⟨none, .retVal (.pyDict [("language", "ro")])⟩ "/tmp/t7.wav" []
      [("language", "ro")] rfl rfl rfl rfl).1⟩

end WhisperProxy
